import Mathlib

/-!
Verification development for the Tubez protocol engine: the wire frame model
and codec, the per-tube completion state, the frame handler, the event-tag
state machine, and the client channel's tube-id allocator.

Shallow embedding conventions: bytes are `Nat` values (the encoder only emits
values below 256); 16-bit fields are `Nat` with explicit `% 65536` where
wraparound matters; the hyper body sender is modelled as the ordered list of
byte buffers pushed to it; `HashMap` tables are association lists with at most
one entry per key; fallible operations return `Except`.
-/

deriving instance DecidableEq for Except

namespace Tubez

/-- Abort reasons carried by `Abort` frames (`frame.rs`, wire byte:
0x00 = Unknown, 0x01 = ApplicationError; unknown bytes decode as Unknown). -/
inductive AbortReason
  | Unknown
  | ApplicationError
deriving DecidableEq, Repr

/-- Which endpoint the local peer is (`common/mod.rs`). -/
inductive PeerType
  | Client
  | Server
deriving DecidableEq, Repr

/-- The seven-tag wire frame model (`frame.rs`; spec section 4.1). Header
names/values and payload data are carried as their byte sequences. -/
inductive Frame
  | NewTube (tube_id : Nat) (headers : List (List Nat × List Nat))
  | Payload (tube_id : Nat) (ack_id : Option Nat) (data : List Nat)
  | PayloadAck (tube_id : Nat) (ack_id : Nat)
  | ClientHasFinishedSending (tube_id : Nat)
  | ServerHasFinishedSending (tube_id : Nat)
  | Abort (tube_id : Nat) (reason : AbortReason)
  | AbortAck (tube_id : Nat)
  | Drain
deriving DecidableEq, Repr

/-- Encoder failure (`encode.rs`; spec section 4.2). -/
inductive FrameEncodeError
  | BodyTooLarge
deriving DecidableEq, Repr

/-- Decoder failure (`decode.rs`; spec section 4.3). `DecoderPoisoned` models
the poisoned decoder refusing further input. -/
inductive FrameDecodeError
  | UnknownFrameTag (tag : Nat)
  | MalformedFrame (tag : Nat) (field : String)
  | DecoderPoisoned
deriving DecidableEq, Repr

/-- Big-endian 2-byte encoding of a 16-bit value. -/
def u16be (n : Nat) : List Nat := [n / 256 % 256, n % 256]

/-- Wire byte of an `AbortReason`. -/
def AbortReason.toByte : AbortReason → Nat
  | .Unknown => 0
  | .ApplicationError => 1

/-- Decode an `AbortReason` byte; unknown values decode as `Unknown` rather
than failing (spec section 4.1). -/
def AbortReason.ofByte : Nat → AbortReason
  | 1 => .ApplicationError
  | _ => .Unknown

/-- Header-block entry list encoding: each entry is
`u16 name_len, name_bytes, u16 value_len, value_bytes` (spec section 4.1). -/
def encodeEntries : List (List Nat × List Nat) → List Nat
  | [] => []
  | (n, v) :: t => u16be n.length ++ n ++ u16be v.length ++ v ++ encodeEntries t

/-- Header block: `u16 count` followed by the entries (spec section 4.1). -/
def encodeHeaders (hs : List (List Nat × List Nat)) : List Nat :=
  u16be hs.length ++ encodeEntries hs

/-- Wire tag byte of each frame variant (spec section 4.1). -/
def Frame.tag : Frame → Nat
  | .NewTube .. => 0
  | .Payload .. => 1
  | .PayloadAck .. => 2
  | .ClientHasFinishedSending _ => 3
  | .ServerHasFinishedSending _ => 4
  | .Abort .. => 5
  | .AbortAck _ => 6
  | .Drain => 7

/-- Body bytes of each frame variant (spec section 4.1): `Payload` carries an
`ack_flag` byte and the `ack_id` iff the flag is 1; `data` consumes the
remainder of the body. -/
def Frame.body : Frame → List Nat
  | .NewTube tid hs => u16be tid ++ encodeHeaders hs
  | .Payload tid none data => u16be tid ++ 0 :: data
  | .Payload tid (some a) data => u16be tid ++ 1 :: u16be a ++ data
  | .PayloadAck tid a => u16be tid ++ u16be a
  | .ClientHasFinishedSending tid => u16be tid
  | .ServerHasFinishedSending tid => u16be tid
  | .Abort tid r => u16be tid ++ [r.toByte]
  | .AbortAck tid => u16be tid
  | .Drain => []

/-- Modelled from the spec: the frame encoder of `encode.rs` (not present
under `src/`), per spec sections 4.1-4.2. Emits `tag, u16be body_length,
body`; fails with `BodyTooLarge` when the body exceeds the 2-byte cap. -/
def encodeFrame (f : Frame) : Except FrameEncodeError (List Nat) :=
  let body := f.body
  if body.length ≤ 65535 then .ok (f.tag :: u16be body.length ++ body)
  else .error .BodyTooLarge

/-- Read a big-endian u16 off the front of a byte list. -/
def readU16 : List Nat → Option (Nat × List Nat)
  | b1 :: b2 :: rest => some (b1 * 256 + b2, rest)
  | _ => none

/-- Read exactly `n` bytes off the front of a byte list. -/
def readBytes (n : Nat) (bs : List Nat) : Option (List Nat × List Nat) :=
  if n ≤ bs.length then some (bs.take n, bs.drop n) else none

/-- Parse `count` header entries, threading the unconsumed tail. -/
def parseEntries : Nat → List Nat → Option (List (List Nat × List Nat) × List Nat)
  | 0, bs => some ([], bs)
  | k + 1, bs => do
    let (nl, bs) ← readU16 bs
    let (name, bs) ← readBytes nl bs
    let (vl, bs) ← readU16 bs
    let (value, bs) ← readBytes vl bs
    let (entries, bs) ← parseEntries k bs
    some ((name, value) :: entries, bs)

/-- Modelled from the spec: the per-tag body parser of `decode.rs` (not
present under `src/`), per spec sections 4.1 and 4.3. The body is exactly
`length` bytes; malformed contents fail with `MalformedFrame(tag, field)`. -/
def parseBody (tag : Nat) (body : List Nat) : Except FrameDecodeError Frame :=
  match tag with
  | 0 =>
    match readU16 body with
    | none => .error (.MalformedFrame 0 "tube_id")
    | some (tid, bs) =>
      match readU16 bs with
      | none => .error (.MalformedFrame 0 "header_count")
      | some (count, bs) =>
        match parseEntries count bs with
        | none => .error (.MalformedFrame 0 "headers")
        | some (hs, rest) =>
          if rest.isEmpty then .ok (.NewTube tid hs)
          else .error (.MalformedFrame 0 "headers_trailing_bytes")
  | 1 =>
    match readU16 body with
    | none => .error (.MalformedFrame 1 "tube_id")
    | some (tid, bs) =>
      match bs with
      | 0 :: data => .ok (.Payload tid none data)
      | 1 :: bs2 =>
        match readU16 bs2 with
        | none => .error (.MalformedFrame 1 "ack_id")
        | some (a, data) => .ok (.Payload tid (some a) data)
      | _ => .error (.MalformedFrame 1 "ack_flag")
  | 2 =>
    match body with
    | [b1, b2, c1, c2] => .ok (.PayloadAck (b1 * 256 + b2) (c1 * 256 + c2))
    | _ => .error (.MalformedFrame 2 "body")
  | 3 =>
    match body with
    | [b1, b2] => .ok (.ClientHasFinishedSending (b1 * 256 + b2))
    | _ => .error (.MalformedFrame 3 "body")
  | 4 =>
    match body with
    | [b1, b2] => .ok (.ServerHasFinishedSending (b1 * 256 + b2))
    | _ => .error (.MalformedFrame 4 "body")
  | 5 =>
    match body with
    | [b1, b2, r] => .ok (.Abort (b1 * 256 + b2) (AbortReason.ofByte r))
    | _ => .error (.MalformedFrame 5 "body")
  | 6 =>
    match body with
    | [b1, b2] => .ok (.AbortAck (b1 * 256 + b2))
    | _ => .error (.MalformedFrame 6 "body")
  | 7 =>
    match body with
    | [] => .ok .Drain
    | _ => .error (.MalformedFrame 7 "body")
  | t => .error (.UnknownFrameTag t)

/-- Drain every fully-buffered frame off the front of the buffer, returning
the decoded frames and the retained partial-frame tail. `fuel` bounds the
recursion; each decoded frame consumes at least 3 bytes, so fuel equal to the
buffer length always suffices. An unknown tag byte fails immediately; a
truncated length or body retains the bytes for the next feed. -/
def drainFrames : Nat → List Nat → Except FrameDecodeError (List Frame × List Nat)
  | 0, buf => .ok ([], buf)
  | fuel + 1, buf =>
    match buf with
    | [] => .ok ([], [])
    | tag :: rest =>
      if tag ≤ 7 then
        match rest with
        | l1 :: l2 :: rest2 =>
          let len := l1 * 256 + l2
          if len ≤ rest2.length then
            match parseBody tag (rest2.take len) with
            | .error e => .error e
            | .ok f =>
              match drainFrames fuel (rest2.drop len) with
              | .error e => .error e
              | .ok (fs, leftover) => .ok (f :: fs, leftover)
          else .ok ([], buf)
        | _ => .ok ([], buf)
      else .error (.UnknownFrameTag tag)

/-- Modelled from the spec: the stateful streaming decoder of `decode.rs`
(not present under `src/`), per spec section 4.3: a byte buffer accumulates
the current partial frame; a decode error poisons the decoder, which then
refuses further input. -/
structure Decoder where
  buf : List Nat
  poisoned : Bool
deriving DecidableEq, Repr

/-- A fresh decoder: empty buffer, not poisoned. -/
def Decoder.new : Decoder := ⟨[], false⟩

/-- Feed a chunk of bytes: returns the frames fully decoded so far and the
updated decoder (retaining any partial-frame tail, or poisoned on error). -/
def Decoder.decode (d : Decoder) (chunk : List Nat) :
    Except FrameDecodeError (List Frame) × Decoder :=
  if d.poisoned then (.error .DecoderPoisoned, d)
  else
    let buf := d.buf ++ chunk
    match drainFrames buf.length buf with
    | .ok (fs, leftover) => (.ok fs, ⟨leftover, false⟩)
    | .error e => (.error e, ⟨buf, true⟩)

/-- Well-formedness of a frame value with respect to the wire format's field
widths: every u16 field fits 16 bits (in the source these fields are `u16` by
type, so this is implicit there). -/
def Frame.wf : Frame → Prop
  | .NewTube tid hs =>
      tid < 65536 ∧ ∀ e ∈ hs, e.1.length < 65536 ∧ e.2.length < 65536
  | .Payload tid ack _ => tid < 65536 ∧ ∀ a ∈ ack, a < 65536
  | .PayloadAck tid a => tid < 65536 ∧ a < 65536
  | .ClientHasFinishedSending tid => tid < 65536
  | .ServerHasFinishedSending tid => tid < 65536
  | .Abort tid _ => tid < 65536
  | .AbortAck tid => tid < 65536
  | .Drain => True

instance : DecidablePred Frame.wf := fun f =>
  match f with
  | .NewTube tid hs =>
    inferInstanceAs (Decidable (tid < 65536 ∧ ∀ e ∈ hs, e.1.length < 65536 ∧ e.2.length < 65536))
  | .Payload tid ack _ =>
    inferInstanceAs (Decidable (tid < 65536 ∧ ∀ a ∈ ack, a < 65536))
  | .PayloadAck tid a => inferInstanceAs (Decidable (tid < 65536 ∧ a < 65536))
  | .ClientHasFinishedSending tid => inferInstanceAs (Decidable (tid < 65536))
  | .ServerHasFinishedSending tid => inferInstanceAs (Decidable (tid < 65536))
  | .Abort tid _ => inferInstanceAs (Decidable (tid < 65536))
  | .AbortAck tid => inferInstanceAs (Decidable (tid < 65536))
  | .Drain => inferInstanceAs (Decidable True)


/-! ## Tube events and the event-tag state machine (`common/tube/tube_event.rs`) -/

/-- Reasons a server asks a client to drain; no variants exist yet
(`tube_event.rs`: `pub enum DrainReason {}`). -/
inductive DrainReason
deriving DecidableEq, Repr

/-- Event tags; `Uninitialized` is the machine's start tag
(`tube_event.rs`). -/
inductive TubeEventTag
  | Abort
  | Uninitialized
  | AuthenticatedAndReady
  | Payload
  | ClientHasFinishedSending
  | StreamError
  | ServerHasFinishedSending
  | ServerMustDrain
deriving DecidableEq, Repr

/-- Stream-error kinds surfaced in `TubeEvent::StreamError`
(`tube_event.rs`). -/
inductive TubeEvent_StreamError
  | InvalidTubeEventTransition (prev next : TubeEventTag)
  | ServerError (msg : String)
deriving DecidableEq, Repr

/-- Surface events delivered to a tube's consumer (`tube_event.rs`). -/
inductive TubeEvent
  | Abort (reason : AbortReason)
  | AuthenticatedAndReady
  | ClientHasFinishedSending
  | Payload (data : List Nat)
  | StreamError (e : TubeEvent_StreamError)
  | ServerHasFinishedSending
  | ServerMustDrain (reason : DrainReason)
deriving DecidableEq, Repr

/-- `From<&TubeEvent> for TubeEventTag` (`tube_event.rs`). -/
def TubeEventTag.ofEvent : TubeEvent → TubeEventTag
  | .Abort _ => .Abort
  | .AuthenticatedAndReady => .AuthenticatedAndReady
  | .Payload _ => .Payload
  | .ClientHasFinishedSending => .ClientHasFinishedSending
  | .StreamError _ => .StreamError
  | .ServerMustDrain _ => .ServerMustDrain
  | .ServerHasFinishedSending => .ServerHasFinishedSending

/-- Result of an event-tag transition (`tube_event.rs`). -/
inductive StateMachineTransitionResult
  | Valid
  | Invalid (prev next : TubeEventTag)
deriving DecidableEq, Repr

/-- The event-tag state machine: the previous event's tag
(`tube_event.rs`). -/
structure StateMachine where
  prev_event_tag : TubeEventTag
deriving DecidableEq, Repr

/-- `StateMachine::new` (`tube_event.rs`). -/
def StateMachine.new : StateMachine := ⟨.Uninitialized⟩

/-- `StateMachine::transition_to` (`tube_event.rs`): returns the transition
result and the updated machine; match arms in source order. -/
def StateMachine.transition_to (m : StateMachine) (next_event : TubeEvent) :
    StateMachineTransitionResult × StateMachine :=
  let next_event_tag := TubeEventTag.ofEvent next_event
  match m.prev_event_tag, next_event_tag with
  | .Abort, t => (.Invalid .Abort t, m)
  | _, .Abort => (.Valid, ⟨.Abort⟩)
  | .Uninitialized, .AuthenticatedAndReady => (.Valid, ⟨next_event_tag⟩)
  | .AuthenticatedAndReady, .Payload
  | .AuthenticatedAndReady, .ClientHasFinishedSending
  | .AuthenticatedAndReady, .StreamError
  | .AuthenticatedAndReady, .ServerHasFinishedSending
  | .AuthenticatedAndReady, .ServerMustDrain => (.Valid, ⟨next_event_tag⟩)
  | .Payload, .Payload
  | .Payload, .ClientHasFinishedSending
  | .Payload, .StreamError
  | .Payload, .ServerHasFinishedSending
  | .Payload, .ServerMustDrain => (.Valid, ⟨next_event_tag⟩)
  | .ClientHasFinishedSending, .StreamError
  | .ClientHasFinishedSending, .ServerHasFinishedSending
  | .ClientHasFinishedSending, .ServerMustDrain => (.Valid, ⟨next_event_tag⟩)
  | .ServerMustDrain, .Payload
  | .ServerMustDrain, .ClientHasFinishedSending
  | .ServerMustDrain, .ServerHasFinishedSending
  | .ServerMustDrain, .StreamError => (.Valid, ⟨next_event_tag⟩)
  | p, t => (.Invalid p t, m)

/-! ## Tube manager and completion state -/

/-- Per-tube completion states (`tube_manager.rs` via its uses in
`frame_handler.rs`; spec section 3). -/
inductive TubeCompletionState
  | Open
  | ClientHasFinishedSending
  | ServerHasFinishedSending
  | Closed
  | AbortedFromLocal (reason : AbortReason)
  | AbortedFromRemote (reason : AbortReason)
deriving DecidableEq, Repr

/-- Modelled from the spec: the `TubeManager` struct of `tube_manager.rs`
(not present under `src/`), per spec section 3 and its uses in
`frame_handler.rs`. `pending_events` is the FIFO queue (push_back appends);
`sendacks` maps an ack id to whether its one-shot has been resolved; `waker`
records whether a suspension handle is stored (wake = take it); and
`abort_pending_id_reservation` is the id-reuse marker. -/
structure TubeManager where
  completion_state : TubeCompletionState
  pending_events : List TubeEvent
  sendacks : List (Nat × Bool)
  waker : Bool
  abort_pending_id_reservation : Option Unit
  ack_id_counter : Nat
deriving DecidableEq, Repr

/-- `TubeManager::new` (modelled from the spec): a fresh tube is `Open` with
everything else empty. -/
def TubeManager.new : TubeManager :=
  { completion_state := .Open
    pending_events := []
    sendacks := []
    waker := false
    abort_pending_id_reservation := none
    ack_id_counter := 0 }

/-- Association-list lookup for the `tube_id -> TubeManager` table. -/
def tmsGet : List (Nat × TubeManager) → Nat → Option TubeManager
  | [], _ => none
  | (k, m) :: t, tid => if k = tid then some m else tmsGet t tid

/-- Write the manager stored under a key (mutation through the shared
`Arc<Mutex<TubeManager>>` as seen by the table). -/
def tmsSet : List (Nat × TubeManager) → Nat → TubeManager → List (Nat × TubeManager)
  | [], _, _ => []
  | (k, m) :: t, tid, m' =>
    if k = tid then (k, m') :: tmsSet t tid m' else (k, m) :: tmsSet t tid m'

/-- `HashMap::remove` on the table. -/
def tmsRemove : List (Nat × TubeManager) → Nat → List (Nat × TubeManager)
  | [], _ => []
  | (k, m) :: t, tid =>
    if k = tid then tmsRemove t tid else (k, m) :: tmsRemove t tid

/-- Lookup in the `sendacks` map. -/
def sendacksGet : List (Nat × Bool) → Nat → Option Bool
  | [], _ => none
  | (k, b) :: t, a => if k = a then some b else sendacksGet t a

/-- Resolve the one-shot stored under an ack id (`res.resolve(())`). -/
def sendacksResolve : List (Nat × Bool) → Nat → List (Nat × Bool)
  | [], _ => []
  | (k, b) :: t, a =>
    if k = a then (k, true) :: sendacksResolve t a
    else (k, b) :: sendacksResolve t a

/-! ## Frame handler (`common/frame/frame_handler.rs`) -/

/-- `FrameHandlerError` (`frame_handler.rs`). The transmit-error variants
carry no payload here (the hyper error is opaque to the protocol logic). -/
inductive FrameHandlerError
  | AbortAckFrameEncodingError (e : FrameEncodeError)
  | AbortAckTransmitError
  | DuplicateAbortFrame (tube_id : Nat)
  | DuplicateHasFinishedSendingFrame (tube_id : Nat)
  | InappropriateHasFinishedSendingFrameFromPeer
  | PayloadAckFrameEncodingError (e : FrameEncodeError)
  | PayloadAckTransmitError
  | ReceivedHasFinishedSendingAfterRemoteAbort (tube_id : Nat)
  | ServerInitiatedTubesNotImplemented
  | TubeManagerInsertionError (tube_id : Nat)
  | UntrackedAckId (tube_id : Nat) (ack_id : Nat)
  | UntrackedTubeId (f : Frame)
deriving DecidableEq, Repr

/-- `FrameHandlerResult` (`frame_handler.rs`): the `NewTube` variant carries
the surfaced tube, identified here by its id. -/
inductive FrameHandlerResult
  | FullyHandled
  | NewTube (tube_id : Nat)
deriving DecidableEq, Repr

/-- The mutable context `handle_frame` acts on: the shared
`tube_id -> TubeManager` table and the outbound hyper body sender, the
latter modelled as the ordered list of byte buffers passed to
`send_data` (an infallible sink: transmit errors are out of scope of the
shallow embedding, so the `*TransmitError` paths are never taken). -/
structure HandlerState where
  tube_managers : List (Nat × TubeManager)
  sent : List (List Nat)
deriving DecidableEq, Repr

/-- `encode::payload_ack_frame` (modelled from the spec, `encode.rs` not
under `src/`). -/
def payload_ack_frame (tube_id ack_id : Nat) : Except FrameEncodeError (List Nat) :=
  encodeFrame (.PayloadAck tube_id ack_id)

/-- `encode::abort_ack_frame` (modelled from the spec, `encode.rs` not under
`src/`). -/
def abort_ack_frame (tube_id : Nat) : Except FrameEncodeError (List Nat) :=
  encodeFrame (.AbortAck tube_id)

/-- Outcome of the nested `new_state` match in the two HasFinishedSending
arms of `handle_frame`: a successor state, a duplicate-frame error, an
after-remote-abort error, or the silent early `FullyHandled` return. -/
inductive HfsNext
  | next (s : TubeCompletionState)
  | dup
  | afterRemoteAbort
  | silent
deriving DecidableEq, Repr

/-- The nested state match of the `ClientHasFinishedSending` arm
(`frame_handler.rs:82-100`). -/
def chfs_new_state : TubeCompletionState → HfsNext
  | .Open => .next .ClientHasFinishedSending
  | .ServerHasFinishedSending => .next .Closed
  | .ClientHasFinishedSending => .dup
  | .Closed => .dup
  | .AbortedFromRemote _ => .afterRemoteAbort
  | .AbortedFromLocal _ => .silent

/-- The nested state match of the `ServerHasFinishedSending` arm
(`frame_handler.rs:216-234`). -/
def shfs_new_state : TubeCompletionState → HfsNext
  | .Open => .next .ServerHasFinishedSending
  | .ClientHasFinishedSending => .next .Closed
  | .ServerHasFinishedSending => .dup
  | .Closed => .dup
  | .AbortedFromRemote _ => .afterRemoteAbort
  | .AbortedFromLocal _ => .silent

/-- The per-manager critical section of the two HasFinishedSending arms
(`frame_handler.rs:102-112` and 236-246): on a state change, set the new
state, enqueue the half-close event when the new state is the given
half-close state, and take/wake the waker; report whether the entry should
be removed (new state `Closed`). -/
def hfsApply (tm : TubeManager) (new_state : TubeCompletionState)
    (half_close : TubeCompletionState) (ev : TubeEvent) : TubeManager × Bool :=
  let tm :=
    if tm.completion_state ≠ new_state then
      let tm := { tm with completion_state := new_state }
      let tm :=
        if tm.completion_state = half_close then
          { tm with pending_events := tm.pending_events ++ [ev] }
        else tm
      { tm with waker := false }
    else tm
  (tm, new_state = .Closed)

/-- The per-manager critical section of the `Abort` arm
(`frame_handler.rs:260-279`): as written in the source, a tube that is not
already aborted is moved to `AbortedFromLocal(reason)` (not
`AbortedFromRemote`), the `Abort(reason)` event is enqueued, and the waker
is taken and woken; an `AbortedFromRemote` tube yields `DuplicateAbortFrame`
and an `AbortedFromLocal` tube is left untouched. -/
def abortUpdate (tube_id : Nat) (tm : TubeManager) (reason : AbortReason) :
    Except FrameHandlerError TubeManager :=
  match tm.completion_state with
  | .AbortedFromRemote _ => .error (.DuplicateAbortFrame tube_id)
  | .AbortedFromLocal _ => .ok tm
  | _ =>
    .ok { tm with
          completion_state := .AbortedFromLocal reason
          pending_events := tm.pending_events ++ [.Abort reason]
          waker := false }

/-- `FrameHandler::handle_frame` (`frame_handler.rs:64-309`), parameterized
by the handler's `peer_type`, acting on the table-plus-sink state. Each
match arm mirrors the corresponding source arm; sequencing of sink writes
and manager mutations follows the source's statement order via state
threading. -/
def handle_frame (peer_type : PeerType) (fr : Frame) (s : HandlerState) :
    Except FrameHandlerError (FrameHandlerResult × HandlerState) :=
  match fr with
  | .ClientHasFinishedSending tube_id =>
    if peer_type = .Client then
      .error .InappropriateHasFinishedSendingFrameFromPeer
    else
      match tmsGet s.tube_managers tube_id with
      | none => .error (.UntrackedTubeId fr)
      | some tm =>
        match chfs_new_state tm.completion_state with
        | .dup => .error (.DuplicateHasFinishedSendingFrame tube_id)
        | .afterRemoteAbort =>
          .error (.ReceivedHasFinishedSendingAfterRemoteAbort tube_id)
        | .silent => .ok (.FullyHandled, s)
        | .next new_state =>
          let (tm', should_remove) :=
            hfsApply tm new_state .ClientHasFinishedSending
              .ClientHasFinishedSending
          let tms' :=
            if should_remove then tmsRemove s.tube_managers tube_id
            else tmsSet s.tube_managers tube_id tm'
          .ok (.FullyHandled, { s with tube_managers := tms' })
  | .Drain => .ok (.FullyHandled, s)
  | .NewTube tube_id _headers =>
    if peer_type = .Client then
      .error .ServerInitiatedTubesNotImplemented
    else
      match tmsGet s.tube_managers tube_id with
      | some _ => .error (.TubeManagerInsertionError tube_id)
      | none =>
        .ok (.NewTube tube_id,
          { s with tube_managers := s.tube_managers ++ [(tube_id, TubeManager.new)] })
  | .Payload tube_id ack_id data =>
    match tmsGet s.tube_managers tube_id with
    | none => .error (.UntrackedTubeId fr)
    | some tm =>
      let ackSent : Except FrameHandlerError (List (List Nat)) :=
        match ack_id with
        | none => .ok s.sent
        | some a =>
          match payload_ack_frame tube_id a with
          | .error e => .error (.PayloadAckFrameEncodingError e)
          | .ok frame_data => .ok (s.sent ++ [frame_data])
      match ackSent with
      | .error e => .error e
      | .ok sent' =>
        let tm' :=
          { tm with
            pending_events := tm.pending_events ++ [.Payload data]
            waker := false }
        .ok (.FullyHandled,
          { tube_managers := tmsSet s.tube_managers tube_id tm', sent := sent' })
  | .PayloadAck tube_id ack_id =>
    match tmsGet s.tube_managers tube_id with
    | none => .error (.UntrackedTubeId fr)
    | some tm =>
      match sendacksGet tm.sendacks ack_id with
      | none => .error (.UntrackedAckId tube_id ack_id)
      | some _ =>
        let tm' := { tm with sendacks := sendacksResolve tm.sendacks ack_id }
        .ok (.FullyHandled,
          { s with tube_managers := tmsSet s.tube_managers tube_id tm' })
  | .ServerHasFinishedSending tube_id =>
    if peer_type = .Server then
      .error .InappropriateHasFinishedSendingFrameFromPeer
    else
      match tmsGet s.tube_managers tube_id with
      | none => .error (.UntrackedTubeId fr)
      | some tm =>
        match shfs_new_state tm.completion_state with
        | .dup => .error (.DuplicateHasFinishedSendingFrame tube_id)
        | .afterRemoteAbort =>
          .error (.ReceivedHasFinishedSendingAfterRemoteAbort tube_id)
        | .silent => .ok (.FullyHandled, s)
        | .next new_state =>
          let (tm', should_remove) :=
            hfsApply tm new_state .ServerHasFinishedSending
              .ServerHasFinishedSending
          let tms' :=
            if should_remove then tmsRemove s.tube_managers tube_id
            else tmsSet s.tube_managers tube_id tm'
          .ok (.FullyHandled, { s with tube_managers := tms' })
  | .Abort tube_id reason =>
    match tmsGet s.tube_managers tube_id with
    | none => .error (.UntrackedTubeId fr)
    | some tm =>
      match abortUpdate tube_id tm reason with
      | .error e => .error e
      | .ok _tm' =>
        let tms' := tmsRemove s.tube_managers tube_id
        match abort_ack_frame tube_id with
        | .error e => .error (.AbortAckFrameEncodingError e)
        | .ok frame_data =>
          .ok (.FullyHandled,
            { tube_managers := tms', sent := s.sent ++ [frame_data] })
  | .AbortAck tube_id =>
    match tmsGet s.tube_managers tube_id with
    | none => .error (.UntrackedTubeId fr)
    | some tm =>
      let tm' := { tm with abort_pending_id_reservation := none }
      .ok (.FullyHandled,
        { s with tube_managers := tmsSet s.tube_managers tube_id tm' })

/-! ## Client channel (`tubez_client/src/channel.rs`) -/

/-- `MakeTubeError` (`channel.rs`). -/
inductive MakeTubeError
  | FrameEncodeError (e : FrameEncodeError)
  | InternalErrorDuplicateTubeId (tube_id : Nat)
  | UnknownTransportError
deriving DecidableEq, Repr

/-- `frame::encode_establish_tube_frame` (modelled from the spec: the
encoder is not under `src/`; per the spec this transmits the `NewTube`
frame). -/
def encode_establish_tube_frame (tube_id : Nat)
    (headers : List (List Nat × List Nat)) : Except FrameEncodeError (List Nat) :=
  encodeFrame (.NewTube tube_id headers)

/-- The client `Channel` (`channel.rs`): the outbound body sender (modelled
as the transcript of buffers sent), the tube-id allocator counter (a `u16`
in the source, so arithmetic is mod 2^16), and the `tube_id -> Tube`
table (tube handles carry no state the claims need). -/
structure Channel where
  tube_id_counter : Nat
  tubes : List (Nat × Unit)
  sent : List (List Nat)
deriving DecidableEq, Repr

/-- A freshly connected channel: counter 0, no tubes
(`Channel::new`, `channel.rs:58-62`). -/
def Channel.new : Channel := ⟨0, [], []⟩

/-- `Channel::new_tube_id` (`channel.rs:94-98`): return the current counter
and advance it by 2 (u16 arithmetic). -/
def Channel.new_tube_id (c : Channel) : Nat × Channel :=
  (c.tube_id_counter, { c with tube_id_counter := (c.tube_id_counter + 2) % 65536 })

/-- `Channel::make_tube` (`channel.rs:65-92`): allocate an id, encode and
transmit the establish-tube frame, then insert the tube handle
(`try_insert`, duplicate id fails). -/
def Channel.make_tube (c : Channel) (headers : List (List Nat × List Nat)) :
    Except MakeTubeError (Nat × Channel) :=
  match c.new_tube_id with
  | (tube_id, c) =>
    match encode_establish_tube_frame tube_id headers with
    | .error e => .error (.FrameEncodeError e)
    | .ok frame_data =>
      let c := { c with sent := c.sent ++ [frame_data] }
      match c.tubes.lookup tube_id with
      | some _ => .error (.InternalErrorDuplicateTubeId tube_id)
      | none => .ok (tube_id, { c with tubes := c.tubes ++ [(tube_id, ())] })

/-- The channel after `n` calls of `new_tube_id` starting from a fresh
channel. -/
def allocN : Nat → Channel
  | 0 => Channel.new
  | n + 1 => (allocN n).new_tube_id.2

/-- The tube id produced by the (n+1)-st allocation on a fresh channel. -/
def clientTubeId (n : Nat) : Nat := (allocN n).new_tube_id.1

/-! ## Codec round-trip lemmas -/

theorem u16_parts (n : Nat) (h : n < 65536) : n / 256 % 256 * 256 + n % 256 = n := by
  omega

theorem readU16_u16be (n : Nat) (h : n < 65536) (rest : List Nat) :
    readU16 (u16be n ++ rest) = some (n, rest) := by
  simp [u16be, readU16, u16_parts n h]

theorem readBytes_append (xs rest : List Nat) :
    readBytes xs.length (xs ++ rest) = some (xs, rest) := by
  simp [readBytes, List.take_left, List.drop_left]

theorem parseEntries_encodeEntries (hs : List (List Nat × List Nat))
    (h : ∀ e ∈ hs, e.1.length < 65536 ∧ e.2.length < 65536) (rest : List Nat) :
    parseEntries hs.length (encodeEntries hs ++ rest) = some (hs, rest) := by
  induction hs with
  | nil => simp [encodeEntries, parseEntries]
  | cons e t ih =>
    obtain ⟨hn, hv⟩ := h e (List.mem_cons_self e t)
    have ht := fun e he => h e (List.mem_cons_of_mem _ he)
    simp only [encodeEntries, List.length_cons, List.append_assoc]
    simp [parseEntries, readU16_u16be _ hn, readU16_u16be _ hv,
      readBytes_append, ih ht]

theorem length_le_encodeEntries (hs : List (List Nat × List Nat)) :
    hs.length ≤ (encodeEntries hs).length := by
  induction hs with
  | nil => simp [encodeEntries]
  | cons e t ih => simp [encodeEntries, u16be]; omega

theorem frame_tag_le (f : Frame) : f.tag ≤ 7 := by
  cases f <;> simp [Frame.tag]

theorem parseBody_body (f : Frame) (hwf : f.wf)
    (hlen : f.body.length ≤ 65535) : parseBody f.tag f.body = .ok f := by
  cases f with
  | NewTube tid hs =>
    obtain ⟨htid, hhs⟩ := hwf
    have hcount : hs.length < 65536 := by
      have h1 := length_le_encodeEntries hs
      have h2 : (Frame.body (.NewTube tid hs)).length =
          4 + (encodeEntries hs).length := by
        simp [Frame.body, encodeHeaders, u16be]; omega
      omega
    have hparse := parseEntries_encodeEntries hs hhs []
    rw [List.append_nil] at hparse
    simp only [Frame.body, Frame.tag, encodeHeaders, parseBody, List.append_assoc,
      readU16_u16be _ htid, readU16_u16be _ hcount, hparse]
    simp
  | Payload tid ack data =>
    obtain ⟨htid, hack⟩ := hwf
    cases ack with
    | none => simp [Frame.body, Frame.tag, parseBody, readU16_u16be _ htid]
    | some a =>
      have ha : a < 65536 := hack a rfl
      simp only [Frame.body, Frame.tag, parseBody, List.append_assoc,
        readU16_u16be _ htid]
      simp [u16be, readU16, u16_parts a ha]
  | PayloadAck tid a =>
    obtain ⟨htid, ha⟩ := hwf
    simp [Frame.body, Frame.tag, parseBody, u16be, u16_parts tid htid, u16_parts a ha]
  | ClientHasFinishedSending tid =>
    simp [Frame.body, Frame.tag, parseBody, u16be, u16_parts tid hwf]
  | ServerHasFinishedSending tid =>
    simp [Frame.body, Frame.tag, parseBody, u16be, u16_parts tid hwf]
  | Abort tid r =>
    have : AbortReason.ofByte r.toByte = r := by
      cases r <;> simp [AbortReason.toByte, AbortReason.ofByte]
    simp [Frame.body, Frame.tag, parseBody, u16be, u16_parts tid hwf, this]
  | AbortAck tid =>
    simp [Frame.body, Frame.tag, parseBody, u16be, u16_parts tid hwf]
  | Drain => simp [Frame.body, Frame.tag, parseBody]

theorem drainFrames_nil (fuel : Nat) : drainFrames fuel [] = .ok ([], []) := by
  cases fuel <;> simp [drainFrames]

theorem drainFrames_single (fuel : Nat) (hfuel : fuel ≠ 0) (tag : Nat)
    (body : List Nat) (f : Frame) (htag : tag ≤ 7) (hbl : body.length < 65536)
    (hp : parseBody tag body = .ok f) :
    drainFrames fuel (tag :: u16be body.length ++ body) = .ok ([f], []) := by
  obtain ⟨k, rfl⟩ := Nat.exists_eq_succ_of_ne_zero hfuel
  simp only [drainFrames, u16be, List.cons_append, List.nil_append]
  rw [if_pos htag]
  simp only [u16_parts body.length hbl]
  rw [if_pos (Nat.le_refl _), List.take_length, hp, List.drop_length,
    drainFrames_nil]

/-- C7: For every frame value F of the wire frame variants (with its 16-bit
fields in range), encoding F and then feeding the resulting bytes to a fresh
decoder yields exactly the one-element frame sequence [F] (and the decoder
returns to its fresh state). -/
theorem codec_roundtrip (f : Frame) (hwf : f.wf) (bytes : List Nat)
    (henc : encodeFrame f = .ok bytes) :
    Decoder.new.decode bytes = (.ok [f], Decoder.new) := by
  simp only [encodeFrame] at henc
  split at henc
  case isTrue hlen =>
    have hbytes : bytes = f.tag :: u16be f.body.length ++ f.body := by
      cases henc; rfl
    have hbl : f.body.length < 65536 := Nat.lt_succ_of_le hlen
    have hparse := parseBody_body f hwf hlen
    have hne : bytes.length ≠ 0 := by
      rw [hbytes]; simp
    subst hbytes
    simp only [Decoder.decode, Decoder.new, Bool.false_eq_true, if_false,
      List.nil_append]
    rw [drainFrames_single _ hne _ _ f (frame_tag_le f) hbl hparse]
  case isFalse => cases henc

/-- Witness for C7 at a concrete `Payload` frame carrying an ack. -/
theorem codec_roundtrip_witness :
    Frame.wf (.Payload 2 (some 7) [65, 66]) ∧
    encodeFrame (.Payload 2 (some 7) [65, 66]) =
      .ok [1, 0, 7, 0, 2, 1, 0, 7, 65, 66] ∧
    Decoder.new.decode [1, 0, 7, 0, 2, 1, 0, 7, 65, 66] =
      (.ok [Frame.Payload 2 (some 7) [65, 66]], Decoder.new) :=
  ⟨by decide, by decide,
    codec_roundtrip (.Payload 2 (some 7) [65, 66]) (by decide) _ (by decide)⟩

/-! ## Table lemmas -/

theorem tmsGet_tmsSet_self (tms : List (Nat × TubeManager)) (tid : Nat)
    (m m' : TubeManager) (h : tmsGet tms tid = some m) :
    tmsGet (tmsSet tms tid m') tid = some m' := by
  induction tms with
  | nil => simp [tmsGet] at h
  | cons e t ih =>
    obtain ⟨k, v⟩ := e
    by_cases hk : k = tid
    · subst hk; simp [tmsGet, tmsSet]
    · simp only [tmsGet, tmsSet, if_neg hk] at h ⊢
      exact ih h

theorem tmsGet_tmsRemove_self (tms : List (Nat × TubeManager)) (tid : Nat) :
    tmsGet (tmsRemove tms tid) tid = none := by
  induction tms with
  | nil => simp [tmsRemove, tmsGet]
  | cons e t ih =>
    obtain ⟨k, v⟩ := e
    by_cases hk : k = tid
    · simp [tmsRemove, hk, ih]
    · simp [tmsRemove, hk, tmsGet, ih]

/-! ## Claim theorems -/

theorem payload_ack_frame_ok (tid a : Nat) :
    payload_ack_frame tid a = .ok ([2, 0, 4] ++ u16be tid ++ u16be a) := by
  simp [payload_ack_frame, encodeFrame, Frame.body, Frame.tag, u16be]

/-- C1: the claim says the handler, on an `Abort` frame for a tube that is
not already aborted, sets `AbortedFromRemote(reason)`; the source at
`frame_handler.rs:271-272` instead sets `AbortedFromLocal(reason)` (which
also makes the `DuplicateAbortFrame` check on `AbortedFromRemote`
unreachable from frame processing). Exhibited on a fresh `Open` tube: the
critical section yields `AbortedFromLocal(Unknown)` with the `Abort` event
enqueued, and the handler removes the entry and sends the `AbortAck`. -/
theorem abort_frame_sets_aborted_from_local :
    abortUpdate 0 TubeManager.new AbortReason.Unknown =
      .ok { TubeManager.new with
            completion_state := .AbortedFromLocal .Unknown
            pending_events := [.Abort .Unknown] } ∧
    TubeCompletionState.AbortedFromLocal .Unknown ≠
      TubeCompletionState.AbortedFromRemote .Unknown ∧
    handle_frame .Server (.Abort 0 .Unknown) ⟨[(0, TubeManager.new)], []⟩ =
      .ok (.FullyHandled, ⟨[], [[6, 0, 2, 0, 0]]⟩) := by
  refine ⟨rfl, by decide, by decide⟩

/-- C2 counterexample: processing `AbortAck` does not remove the tube's
entry from the manager table. On a table holding tube 4 in
`AbortedFromLocal` with a pending id reservation, the handler returns the
table with tube 4 still present (only the reservation cleared). -/
theorem abortack_no_removal_counterexample :
    handle_frame .Client (.AbortAck 4)
      ⟨[(4, { TubeManager.new with
              completion_state := .AbortedFromLocal .Unknown
              abort_pending_id_reservation := some () })], []⟩ =
      .ok (.FullyHandled,
        ⟨[(4, { TubeManager.new with
                completion_state := .AbortedFromLocal .Unknown })], []⟩) ∧
    tmsGet [(4, { TubeManager.new with
                  completion_state := .AbortedFromLocal .Unknown })] 4 ≠ none := by
  exact ⟨by decide, by decide⟩

/-- C2 (amended): for every tracked tube, when the frame handler processes
an `AbortAck` frame for that tube it clears the tube's
`abort_pending_id_reservation`; the tube's entry remains in the manager
table (only the reservation is cleared to free the `tube_id`). -/
theorem abortack_clears_reservation (peer : PeerType) (s : HandlerState)
    (tid : Nat) (tm : TubeManager)
    (h : tmsGet s.tube_managers tid = some tm) :
    handle_frame peer (.AbortAck tid) s =
      .ok (.FullyHandled,
        { s with tube_managers := (tmsSet s.tube_managers tid
            { tm with abort_pending_id_reservation := none }) }) ∧
    tmsGet (tmsSet s.tube_managers tid
      { tm with abort_pending_id_reservation := none }) tid =
      some { tm with abort_pending_id_reservation := none } := by
  refine ⟨by simp [handle_frame, h], tmsGet_tmsSet_self _ _ tm _ h⟩

/-- Witness for C2's amended theorem on a concrete one-entry table. -/
theorem abortack_clears_reservation_witness :
    tmsGet [(4, TubeManager.new)] 4 = some TubeManager.new ∧
    handle_frame .Client (.AbortAck 4) ⟨[(4, TubeManager.new)], []⟩ =
      .ok (.FullyHandled, ⟨[(4, TubeManager.new)], []⟩) :=
  ⟨by decide, by
    have h := (abortack_clears_reservation .Client ⟨[(4, TubeManager.new)], []⟩ 4
      TubeManager.new (by decide)).1
    simpa using h⟩

/-- C3: for every tracked tube and every `Payload` frame carrying
`ack_id = some a`, the handler encodes a `PayloadAck(tube_id, a)`, sends it
on the outbound sink, and (sequenced after the send by state threading)
enqueues `TubeEvent::Payload(data)` on the tube's pending events, waking the
waker; an untracked `tube_id` yields `UntrackedTubeId` instead. -/
theorem payload_ack_sent_then_enqueued (peer : PeerType) (s : HandlerState)
    (tube_id a : Nat) (data : List Nat) :
    (∀ tm, tmsGet s.tube_managers tube_id = some tm →
      ∃ ackBytes, payload_ack_frame tube_id a = .ok ackBytes ∧
        handle_frame peer (.Payload tube_id (some a) data) s =
          .ok (.FullyHandled,
            { tube_managers := (tmsSet s.tube_managers tube_id
                  { tm with
                    pending_events := tm.pending_events ++ [.Payload data]
                    waker := false })
              sent := s.sent ++ [ackBytes] })) ∧
    (tmsGet s.tube_managers tube_id = none →
      handle_frame peer (.Payload tube_id (some a) data) s =
        .error (.UntrackedTubeId (.Payload tube_id (some a) data))) := by
  refine ⟨fun tm htm => ⟨_, payload_ack_frame_ok tube_id a, ?_⟩,
    fun h => by simp [handle_frame, h]⟩
  simp [handle_frame, htm, payload_ack_frame_ok]

/-- Witness for C3 on a concrete one-entry table. -/
theorem payload_ack_sent_then_enqueued_witness :
    tmsGet [(0, TubeManager.new)] 0 = some TubeManager.new ∧
    handle_frame .Server (.Payload 0 (some 0) [65, 66]) ⟨[(0, TubeManager.new)], []⟩ =
      .ok (.FullyHandled,
        ⟨[(0, { TubeManager.new with pending_events := [.Payload [65, 66]] })],
         [[2, 0, 4, 0, 0, 0, 0]]⟩) := by
  obtain ⟨ab, hab, h⟩ :=
    (payload_ack_sent_then_enqueued .Server ⟨[(0, TubeManager.new)], []⟩
      0 0 [65, 66]).1 TubeManager.new (by decide)
  have h2 : payload_ack_frame 0 0 = .ok [2, 0, 4, 0, 0, 0, 0] := by decide
  rw [h2] at hab
  injection hab with hh
  subst hh
  exact ⟨by decide, h.trans (by decide)⟩

/-- C4: for a tracked tube in a half-close completion state, the opposite
peer's half-close frame drives the inner transition to `Closed` and removes
the entry from the manager table; received while `Open`, the frame moves the
tube to the corresponding half-close state and enqueues the corresponding
event. -/
theorem half_close_transitions (s : HandlerState) (tid : Nat) (tm : TubeManager) :
    (tmsGet s.tube_managers tid = some tm →
     tm.completion_state = .ServerHasFinishedSending →
      chfs_new_state tm.completion_state = .next .Closed ∧
      (handle_frame .Server (.ClientHasFinishedSending tid) s).map
          (fun r => (r.1, tmsGet r.2.tube_managers tid)) =
        .ok (.FullyHandled, none)) ∧
    (tmsGet s.tube_managers tid = some tm →
     tm.completion_state = .ClientHasFinishedSending →
      shfs_new_state tm.completion_state = .next .Closed ∧
      (handle_frame .Client (.ServerHasFinishedSending tid) s).map
          (fun r => (r.1, tmsGet r.2.tube_managers tid)) =
        .ok (.FullyHandled, none)) ∧
    (tmsGet s.tube_managers tid = some tm →
     tm.completion_state = .Open →
      (handle_frame .Server (.ClientHasFinishedSending tid) s).map
          (fun r => (r.1, tmsGet r.2.tube_managers tid)) =
        .ok (.FullyHandled,
          some { tm with
                 completion_state := .ClientHasFinishedSending
                 pending_events := tm.pending_events ++ [.ClientHasFinishedSending]
                 waker := false })) ∧
    (tmsGet s.tube_managers tid = some tm →
     tm.completion_state = .Open →
      (handle_frame .Client (.ServerHasFinishedSending tid) s).map
          (fun r => (r.1, tmsGet r.2.tube_managers tid)) =
        .ok (.FullyHandled,
          some { tm with
                 completion_state := .ServerHasFinishedSending
                 pending_events := tm.pending_events ++ [.ServerHasFinishedSending]
                 waker := false })) := by
  refine ⟨fun htm hst => ⟨by rw [hst]; rfl, ?_⟩,
          fun htm hst => ⟨by rw [hst]; rfl, ?_⟩,
          fun htm hst => ?_, fun htm hst => ?_⟩
  · simp [handle_frame, Except.map, htm, hst, chfs_new_state, hfsApply,
      tmsGet_tmsRemove_self]
  · simp [handle_frame, Except.map, htm, hst, shfs_new_state, hfsApply,
      tmsGet_tmsRemove_self]
  · have hset := tmsGet_tmsSet_self s.tube_managers tid tm
      { tm with
        completion_state := .ClientHasFinishedSending
        pending_events := tm.pending_events ++ [.ClientHasFinishedSending]
        waker := false } htm
    simp [handle_frame, Except.map, htm, hst, chfs_new_state, hfsApply, hset]
  · have hset := tmsGet_tmsSet_self s.tube_managers tid tm
      { tm with
        completion_state := .ServerHasFinishedSending
        pending_events := tm.pending_events ++ [.ServerHasFinishedSending]
        waker := false } htm
    simp [handle_frame, Except.map, htm, hst, shfs_new_state, hfsApply, hset]

/-- Witness for C4: a tube in `ServerHasFinishedSending` receiving
`ClientHasFinishedSending` closes and is removed. -/
theorem half_close_transitions_witness :
    (tmsGet [(2, { TubeManager.new with
        completion_state := .ServerHasFinishedSending })] 2 =
      some { TubeManager.new with completion_state := .ServerHasFinishedSending }) ∧
    chfs_new_state .ServerHasFinishedSending = .next .Closed ∧
    (handle_frame .Server (.ClientHasFinishedSending 2)
        ⟨[(2, { TubeManager.new with
            completion_state := .ServerHasFinishedSending })], []⟩).map
        (fun r => (r.1, tmsGet r.2.tube_managers 2)) =
      .ok (.FullyHandled, none) := by
  have h := (half_close_transitions
    ⟨[(2, { TubeManager.new with
        completion_state := .ServerHasFinishedSending })], []⟩ 2
    { TubeManager.new with completion_state := .ServerHasFinishedSending }).1
    (by decide) rfl
  exact ⟨by decide, h.1, h.2⟩

/-- C5: a server-role handler processing two successive
`ClientHasFinishedSending` frames for the same tube (starting from `Open`)
succeeds on the first and fails on the second with
`DuplicateHasFinishedSendingFrame` carrying the tube id. -/
theorem duplicate_chfs_rejected (s : HandlerState) (tid : Nat) (tm : TubeManager)
    (h : tmsGet s.tube_managers tid = some tm)
    (hopen : tm.completion_state = .Open) :
    handle_frame .Server (.ClientHasFinishedSending tid) s =
      .ok (.FullyHandled,
        { s with tube_managers := (tmsSet s.tube_managers tid
            { tm with
              completion_state := .ClientHasFinishedSending
              pending_events := tm.pending_events ++ [.ClientHasFinishedSending]
              waker := false }) }) ∧
    ((handle_frame .Server (.ClientHasFinishedSending tid) s).bind
        (fun r => handle_frame .Server (.ClientHasFinishedSending tid) r.2)) =
      .error (.DuplicateHasFinishedSendingFrame tid) := by
  have hset := tmsGet_tmsSet_self s.tube_managers tid tm
    { tm with
      completion_state := .ClientHasFinishedSending
      pending_events := tm.pending_events ++ [.ClientHasFinishedSending]
      waker := false } h
  have h1 : handle_frame .Server (.ClientHasFinishedSending tid) s =
      .ok (.FullyHandled,
        { s with tube_managers := (tmsSet s.tube_managers tid
            { tm with
              completion_state := .ClientHasFinishedSending
              pending_events := tm.pending_events ++ [.ClientHasFinishedSending]
              waker := false }) }) := by
    simp [handle_frame, h, hopen, chfs_new_state, hfsApply]
  refine ⟨h1, ?_⟩
  rw [h1]
  simp [Except.bind, handle_frame, hset, chfs_new_state]

/-- Witness for C5 on a concrete one-entry table. -/
theorem duplicate_chfs_rejected_witness :
    tmsGet [(0, TubeManager.new)] 0 = some TubeManager.new ∧
    TubeManager.new.completion_state = .Open ∧
    ((handle_frame .Server (.ClientHasFinishedSending 0)
        ⟨[(0, TubeManager.new)], []⟩).bind
        (fun r => handle_frame .Server (.ClientHasFinishedSending 0) r.2)) =
      .error (.DuplicateHasFinishedSendingFrame 0) :=
  ⟨by decide, by decide,
    (duplicate_chfs_rejected ⟨[(0, TubeManager.new)], []⟩ 0 TubeManager.new
      (by decide) rfl).2⟩

/-- C6: a client-role handler rejects `NewTube` with
`ServerInitiatedTubesNotImplemented`; a server-role handler inserts a fresh
`TubeManager` under the frame's tube id and returns
`FrameHandlerResult::NewTube`, failing with `TubeManagerInsertionError` when
an entry for that id already exists. -/
theorem newtube_handling (s : HandlerState) (tid : Nat)
    (headers : List (List Nat × List Nat)) :
    (handle_frame .Client (.NewTube tid headers) s =
      .error .ServerInitiatedTubesNotImplemented) ∧
    (tmsGet s.tube_managers tid = none →
      handle_frame .Server (.NewTube tid headers) s =
        .ok (.NewTube tid,
          { s with tube_managers := s.tube_managers ++ [(tid, TubeManager.new)] })) ∧
    (∀ tm, tmsGet s.tube_managers tid = some tm →
      handle_frame .Server (.NewTube tid headers) s =
        .error (.TubeManagerInsertionError tid)) := by
  refine ⟨rfl, fun h => ?_, fun tm h => ?_⟩
  · simp [handle_frame, h]
  · simp [handle_frame, h]

/-- Witness for C6: inserting tube 3 into an empty table. -/
theorem newtube_handling_witness :
    tmsGet (HandlerState.mk [] []).tube_managers 3 = none ∧
    handle_frame .Server (.NewTube 3 []) ⟨[], []⟩ =
      .ok (.NewTube 3, ⟨[(3, TubeManager.new)], []⟩) :=
  ⟨by decide, (newtube_handling ⟨[], []⟩ 3 []).2.1 (by decide)⟩

/-- C8: in the event-tag state machine, `transition_to` an `Abort` event
from any previous tag other than `Abort` returns `Valid` and moves the
machine to `Abort`; from a previous tag of `Abort`, `transition_to` any
event returns `Invalid`. -/
theorem event_tag_abort_transitions :
    (∀ prev r, prev ≠ TubeEventTag.Abort →
      StateMachine.transition_to ⟨prev⟩ (.Abort r) =
        (.Valid, ⟨.Abort⟩)) ∧
    (∀ ev, StateMachine.transition_to ⟨.Abort⟩ ev =
      (.Invalid .Abort (TubeEventTag.ofEvent ev), ⟨.Abort⟩)) := by
  constructor
  · intro prev r h
    cases prev <;> first | rfl | exact absurd rfl h
  · intro ev
    cases ev <;> rfl

/-- Witness for C8 from the `Uninitialized` tag. -/
theorem event_tag_abort_transitions_witness :
    TubeEventTag.Uninitialized ≠ TubeEventTag.Abort ∧
    StateMachine.transition_to ⟨.Uninitialized⟩ (.Abort .Unknown) =
      (.Valid, ⟨.Abort⟩) :=
  ⟨by decide, event_tag_abort_transitions.1 _ _ (by decide)⟩

theorem allocN_counter (n : Nat) : (allocN n).tube_id_counter = 2 * n % 65536 := by
  induction n with
  | zero => rfl
  | succ k ih => simp [allocN, Channel.new_tube_id, ih]; omega

theorem clientTubeId_eq (n : Nat) : clientTubeId n = 2 * n % 65536 := by
  simp [clientTubeId, Channel.new_tube_id, allocN_counter]

/-- C9: the client channel's id allocator starts at 0 and advances by 2 per
allocation (u16 arithmetic), so every allocated id is even (never odd), the
first is 0, and each successive id is the previous plus 2 mod 2^16;
`make_tube` returns exactly the id the allocator held. -/
theorem client_tube_ids_even :
    clientTubeId 0 = 0 ∧
    (∀ n, clientTubeId n % 2 = 0) ∧
    (∀ n, clientTubeId (n + 1) = (clientTubeId n + 2) % 65536) ∧
    (∀ c headers tid c', Channel.make_tube c headers = .ok (tid, c') →
      tid = c.tube_id_counter) := by
  refine ⟨rfl, fun n => ?_, fun n => ?_, fun c headers tid c' h => ?_⟩
  · rw [clientTubeId_eq]; omega
  · rw [clientTubeId_eq, clientTubeId_eq]; omega
  · simp only [Channel.make_tube, Channel.new_tube_id] at h
    split at h
    · cases h
    · split at h
      · cases h
      · cases h; rfl

/-- Witness for C9: the first `make_tube` on a fresh channel allocates id 0. -/
theorem client_tube_ids_even_witness :
    Channel.make_tube ⟨0, [], []⟩ [] = .ok (0, ⟨2, [(0, ())], [[0, 0, 4, 0, 0, 0, 0]]⟩) ∧
    (0 : Nat) = (Channel.mk 0 [] []).tube_id_counter :=
  ⟨by decide, client_tube_ids_even.2.2.2 ⟨0, [], []⟩ [] 0
    ⟨2, [(0, ())], [[0, 0, 4, 0, 0, 0, 0]]⟩ (by decide)⟩

/-- C10: the `Payload` arm of the handler never inspects the tube's
completion state: for every tracked tube, in every completion state, a
`Payload` frame is enqueued as a normal `TubeEvent::Payload` and the handler
returns `FullyHandled`; the only error case reachable in the embedding is an
untracked tube id (the ack encode/transmit failure paths are present but the
modelled sink is infallible and a `PayloadAck` body never exceeds the cap). -/
theorem payload_ignores_completion_state (peer : PeerType) (s : HandlerState)
    (tube_id : Nat) (ack_id : Option Nat) (data : List Nat) :
    (∀ tm, tmsGet s.tube_managers tube_id = some tm →
      (handle_frame peer (.Payload tube_id ack_id data) s).map
          (fun r => (r.1, tmsGet r.2.tube_managers tube_id)) =
        .ok (.FullyHandled,
          some { tm with
                 pending_events := tm.pending_events ++ [.Payload data]
                 waker := false })) ∧
    (tmsGet s.tube_managers tube_id = none →
      handle_frame peer (.Payload tube_id ack_id data) s =
        .error (.UntrackedTubeId (.Payload tube_id ack_id data))) := by
  refine ⟨fun tm htm => ?_, fun h => by cases ack_id <;> simp [handle_frame, h]⟩
  have hset := tmsGet_tmsSet_self s.tube_managers tube_id tm
    { tm with
      pending_events := tm.pending_events ++ [.Payload data]
      waker := false } htm
  cases ack_id with
  | none => simp [handle_frame, Except.map, htm, hset]
  | some a => simp [handle_frame, Except.map, htm, payload_ack_frame_ok, hset]

/-- Witness for C10 on a tube already in `Closed` completion state. -/
theorem payload_ignores_completion_state_witness :
    tmsGet [(0, { TubeManager.new with completion_state := .Closed })] 0 =
      some { TubeManager.new with completion_state := .Closed } ∧
    (handle_frame .Server (.Payload 0 none [7])
        ⟨[(0, { TubeManager.new with completion_state := .Closed })], []⟩).map
        (fun r => (r.1, tmsGet r.2.tube_managers 0)) =
      .ok (.FullyHandled,
        some { TubeManager.new with
               completion_state := .Closed
               pending_events := [.Payload [7]] }) :=
  ⟨by decide,
    (payload_ignores_completion_state .Server
      ⟨[(0, { TubeManager.new with completion_state := .Closed })], []⟩
      0 none [7]).1 { TubeManager.new with completion_state := .Closed } (by decide)⟩

end Tubez
